import Mathlib

/-!
Shallow embedding of the session-scoped gamification state machine of the
GOGMLDL repository: `GamificationAgent` (src/agents/gamification.py) and
`QuizAgent` (src/agents/quiz.py).

The mutable Streamlit session dictionary is modelled as an explicit record
`SessionState`.  The keys `"xp"`, `"level"` and `"badges"` carry the defaults
`0`, `1` and `[]` used by every `st.session_state.get` in the source, and the
per-quiz keys `"quiz_<key>_answered"` default to `False`; since no code path
ever deletes a session key, initialising a field to its default is equivalent
to the lazy `if key not in st.session_state` initialisation of the source.

Python integers are modelled as `Int`; Python `//` and `%` are floor division
and floor modulus, i.e. `Int.fdiv` and `Int.fmod`.  The observable Streamlit
side effects (`st.toast`, `st.balloons`) are modelled as returned events.
-/

/-- The Streamlit session state read and written by the agents: `xp`
(default 0), `level` (default 1), `badges` (a Python list, default `[]`),
and one boolean per quiz key `"quiz_<key>_answered"` (default `False`). -/
structure SessionState where
  xp : Int
  level : Int
  badges : List String
  quizAnswered : String → Bool

/-- Session start: every key at its `st.session_state.get` default. -/
def initState : SessionState :=
  { xp := 0, level := 1, badges := [], quizAnswered := fun _ => false }

/-- The user-visible notification emitted by an operation (`st.toast`). -/
inductive Event where
  | levelUp (new_level : Int)
  | xpGained (amount : Int) (reason : String)
  | badgeUnlocked (badge_name : String)
  deriving Repr, DecidableEq

/-- `GamificationAgent.award_xp` (src/agents/gamification.py lines 31-47):
adds `amount` to `xp`, recomputes `new_level = 1 + xp // 100`, and on a
strict increase stores it in `level` and emits the level-up notification;
otherwise emits the plain XP-gained notification. -/
def award_xp (s : SessionState) (amount : Int) (reason : String) :
    SessionState × Event :=
  let old_level := s.level
  let xp' := s.xp + amount
  let new_level := 1 + xp'.fdiv 100
  if old_level < new_level then
    ({ s with xp := xp', level := new_level }, Event.levelUp new_level)
  else
    ({ s with xp := xp' }, Event.xpGained amount reason)

/-- `GamificationAgent.award_badge` (src/agents/gamification.py lines 49-58):
if `badge_name` is not yet in `badges`, append it and emit the
badge-unlocked notification; otherwise do nothing.  The returned boolean
is the spec's `newly_awarded`: it is `true` exactly when the badge was
appended and the notification emitted. -/
def award_badge (s : SessionState) (badge_name : String) :
    SessionState × Bool :=
  if badge_name ∈ s.badges then
    (s, false)
  else
    ({ s with badges := s.badges ++ [badge_name] }, true)

/-- The level-progress fraction rendered by `GamificationAgent.render`
(src/agents/gamification.py line 18): `xp % 100 / 100`, returned together
with the (unchanged) session state to make the absence of mutation
explicit. -/
def progress_fraction (s : SessionState) : ℚ × SessionState :=
  (((s.xp.fmod 100 : Int) : ℚ) / 100, s)

/-- Result of one execution of `QuizAgent.render` for a given quiz key. -/
inductive QuizResult where
  | cachedSuccess (xp_reward : Int)
  | correctAnswer
  | incorrect
  deriving Repr, DecidableEq

/-- One submission step of `QuizAgent.render` (src/agents/quiz.py lines
12-36) for quiz instance `key`.  If `quiz_<key>_answered` is already set,
the success message with the reward is re-shown and nothing else happens;
otherwise the selected option index is compared with `correct_idx`: on a
match the answered flag is set and `award_xp xp_reward "Quiz Correct!"`
runs, on a mismatch the state is untouched. -/
def quizSubmit (xp_reward : Int) (s : SessionState) (key : String)
    (choice_idx correct_idx : Int) : SessionState × QuizResult :=
  if s.quizAnswered key then
    (s, QuizResult.cachedSuccess xp_reward)
  else if choice_idx = correct_idx then
    let s' := { s with
      quizAnswered := fun k => if k = key then true else s.quizAnswered k }
    ((award_xp s' xp_reward "Quiz Correct!").1, QuizResult.correctAnswer)
  else
    (s, QuizResult.incorrect)

/-- Running a sequence of `award_xp` calls, one `(amount, reason)` pair per
call. -/
def runAwards (s : SessionState) : List (Int × String) → SessionState
  | [] => s
  | (a, r) :: rest => runAwards (award_xp s a r).1 rest

/-- The level/xp invariant maintained by `award_xp`. -/
def LevelInv (s : SessionState) : Prop :=
  s.level = 1 + s.xp.fdiv 100

/-- A state with 90 XP at level 1, as in the spec's level-up boundary
example. -/
def stateAt90 : SessionState := { initState with xp := 90 }

/-! ## Helper lemmas -/

theorem award_xp_eq (s : SessionState) (a : Int) (r : String) :
    award_xp s a r =
      if s.level < 1 + (s.xp + a).fdiv 100 then
        ({ s with xp := s.xp + a, level := 1 + (s.xp + a).fdiv 100 },
          Event.levelUp (1 + (s.xp + a).fdiv 100))
      else
        ({ s with xp := s.xp + a }, Event.xpGained a r) := rfl

theorem award_xp_xp (s : SessionState) (a : Int) (r : String) :
    (award_xp s a r).1.xp = s.xp + a := by
  rw [award_xp_eq]; split <;> rfl

theorem award_xp_badges (s : SessionState) (a : Int) (r : String) :
    (award_xp s a r).1.badges = s.badges := by
  rw [award_xp_eq]; split <;> rfl

theorem award_xp_quizAnswered (s : SessionState) (a : Int) (r : String) :
    (award_xp s a r).1.quizAnswered = s.quizAnswered := by
  rw [award_xp_eq]; split <;> rfl

theorem fdiv_hundred_mono {x y : Int} (h : x ≤ y) :
    x.fdiv 100 ≤ y.fdiv 100 := by
  rw [Int.fdiv_eq_ediv _ (by norm_num), Int.fdiv_eq_ediv _ (by norm_num)]
  exact Int.ediv_le_ediv (by norm_num) h

theorem award_xp_inv_step (s : SessionState) (a : Int) (r : String)
    (hinv : LevelInv s) (ha : 0 < a) :
    LevelInv (award_xp s a r).1 ∧ s.xp ≤ (award_xp s a r).1.xp := by
  have hmono : s.xp.fdiv 100 ≤ (s.xp + a).fdiv 100 :=
    fdiv_hundred_mono (by omega)
  unfold LevelInv at *
  rw [award_xp_eq]
  split
  · exact ⟨rfl, by simp; omega⟩
  · next h =>
    refine ⟨?_, by simp; omega⟩
    show s.level = 1 + (s.xp + a).fdiv 100
    omega

theorem runAwards_inv (l : List (Int × String)) (s : SessionState)
    (hinv : LevelInv s) (hpos : ∀ p ∈ l, 0 < p.1) :
    LevelInv (runAwards s l) ∧ s.xp ≤ (runAwards s l).xp := by
  induction l generalizing s with
  | nil => exact ⟨hinv, le_refl _⟩
  | cons p rest ih =>
    obtain ⟨a, r⟩ := p
    have hstep := award_xp_inv_step s a r hinv (hpos (a, r) (by simp))
    have hrest := ih _ hstep.1 (fun q hq => hpos q (by simp [hq]))
    exact ⟨hrest.1, le_trans hstep.2 hrest.2⟩

theorem runAwards_append (s : SessionState) (l₁ l₂ : List (Int × String)) :
    runAwards s (l₁ ++ l₂) = runAwards (runAwards s l₁) l₂ := by
  induction l₁ generalizing s with
  | nil => rfl
  | cons p rest ih =>
    obtain ⟨a, r⟩ := p
    simp [runAwards, ih]

theorem award_badge_frame (s : SessionState) (n : String) :
    (award_badge s n).1.xp = s.xp ∧ (award_badge s n).1.level = s.level ∧
      (award_badge s n).1.quizAnswered = s.quizAnswered := by
  unfold award_badge; split <;> exact ⟨rfl, rfl, rfl⟩

theorem quizSubmit_answered (rwd : Int) (s : SessionState) (key : String)
    (i c : Int) (h : s.quizAnswered key = true) :
    quizSubmit rwd s key i c = (s, QuizResult.cachedSuccess rwd) := by
  unfold quizSubmit
  simp [h]

theorem quizSubmit_wrong (rwd : Int) (s : SessionState) (key : String)
    (i c : Int) (h : s.quizAnswered key = false) (hne : i ≠ c) :
    quizSubmit rwd s key i c = (s, QuizResult.incorrect) := by
  unfold quizSubmit
  simp [h, hne]

theorem quizSubmit_correct (rwd : Int) (s : SessionState) (key : String)
    (c : Int) (h : s.quizAnswered key = false) :
    quizSubmit rwd s key c c =
      ((award_xp { s with quizAnswered :=
          fun k => if k = key then true else s.quizAnswered k }
        rwd "Quiz Correct!").1, QuizResult.correctAnswer) := by
  unfold quizSubmit
  simp [h]

theorem quizSubmit_other_key (rwd : Int) (s : SessionState) (key : String)
    (i c : Int) (k' : String) (hk : k' ≠ key) :
    (quizSubmit rwd s key i c).1.quizAnswered k' = s.quizAnswered k' := by
  unfold quizSubmit
  split
  · rfl
  · split
    · dsimp only
      rw [award_xp_quizAnswered]
      simp [hk]
    · rfl

/-! ## Claim theorems -/

/-- C1: for every sequence of `award_xp` calls with positive amounts starting
from the initial session state, `xp` is non-decreasing and after every call
`level = 1 + floor(xp / 100)`; `award_badge`, the only other mutating
operation on the progress state, never sets `level`. -/
theorem c1_xp_monotone_level_invariant (l₁ l₂ : List (Int × String))
    (n : String) (hpos : ∀ p ∈ l₁ ++ l₂, 0 < p.1) :
    LevelInv (runAwards initState l₁) ∧
      initState.xp ≤ (runAwards initState l₁).xp ∧
      (runAwards initState l₁).xp ≤ (runAwards initState (l₁ ++ l₂)).xp ∧
      (award_badge (runAwards initState l₁) n).1.level =
        (runAwards initState l₁).level := by
  have hinv0 : LevelInv initState := rfl
  have h1 := runAwards_inv l₁ initState hinv0
    (fun p hp => hpos p (by simp [hp]))
  have h2 := runAwards_inv l₂ (runAwards initState l₁) h1.1
    (fun p hp => hpos p (by simp [hp]))
  refine ⟨h1.1, h1.2, ?_, (award_badge_frame _ n).2.1⟩
  rw [runAwards_append]
  exact h2.2

/-- Witness for C1 at the concrete call sequence `[(150, "a")], [(30, "b")]`. -/
theorem c1_xp_monotone_level_invariant_witness :
    LevelInv (runAwards initState [((150 : Int), "a")]) ∧
      initState.xp ≤ (runAwards initState [((150 : Int), "a")]).xp ∧
      (runAwards initState [((150 : Int), "a")]).xp ≤
        (runAwards initState ([((150 : Int), "a")] ++ [((30 : Int), "b")])).xp ∧
      (award_badge (runAwards initState [((150 : Int), "a")]) "Novice").1.level =
        (runAwards initState [((150 : Int), "a")]).level :=
  c1_xp_monotone_level_invariant [((150 : Int), "a")] [((30 : Int), "b")]
    "Novice" (by decide)

/-- C2: once a quiz instance is in the Answered state, submitting the correct
index again is a no-op returning the cached success result; submitting the
correct index twice in a row from Unanswered awards the XP reward exactly
once. -/
theorem c2_resubmission_noop (rwd : Int) (s : SessionState) (key : String)
    (i : Int) (h : s.quizAnswered key = false) :
    (quizSubmit rwd s key i i).1.quizAnswered key = true ∧
    quizSubmit rwd (quizSubmit rwd s key i i).1 key i i =
      ((quizSubmit rwd s key i i).1, QuizResult.cachedSuccess rwd) ∧
    (quizSubmit rwd (quizSubmit rwd s key i i).1 key i i).1.xp = s.xp + rwd := by
  have hc := quizSubmit_correct rwd s key i h
  have hans : (quizSubmit rwd s key i i).1.quizAnswered key = true := by
    simp [hc, award_xp_quizAnswered]
  refine ⟨hans, quizSubmit_answered _ _ _ _ _ hans, ?_⟩
  rw [quizSubmit_answered _ _ _ _ _ hans]
  simp [hc, award_xp_xp]

/-- Witness for C2 at reward 25, quiz key "q1", index 0. -/
theorem c2_resubmission_noop_witness :
    (quizSubmit 25 initState "q1" 0 0).1.quizAnswered "q1" = true ∧
    quizSubmit 25 (quizSubmit 25 initState "q1" 0 0).1 "q1" 0 0 =
      ((quizSubmit 25 initState "q1" 0 0).1, QuizResult.cachedSuccess 25) ∧
    (quizSubmit 25 (quizSubmit 25 initState "q1" 0 0).1 "q1" 0 0).1.xp =
      initState.xp + 25 :=
  c2_resubmission_noop 25 initState "q1" 0 rfl

/-- C3: `award_badge` is idempotent — a name already present leaves `badges`
unchanged and reports `newly_awarded = false` (no notification); a name not
yet present is appended once, reports `newly_awarded = true`, and after the
insertion the name occurs exactly once even after a repeated call. -/
theorem c3_award_badge_idempotent (s : SessionState) (n : String) :
    (n ∈ s.badges → award_badge s n = (s, false)) ∧
    (n ∉ s.badges →
      (award_badge s n).2 = true ∧
      (award_badge s n).1.badges = s.badges ++ [n] ∧
      award_badge (award_badge s n).1 n = ((award_badge s n).1, false) ∧
      (award_badge s n).1.badges.count n = 1) := by
  constructor
  · intro h; unfold award_badge; simp [h]
  · intro h
    have h1 : award_badge s n = ({ s with badges := s.badges ++ [n] }, true) := by
      unfold award_badge; simp [h]
    have hmem : n ∈ s.badges ++ [n] := by simp
    refine ⟨by rw [h1], by rw [h1], ?_, ?_⟩
    · rw [h1]
      unfold award_badge
      simp [hmem]
    · rw [h1]
      simp [List.count_append, List.count_eq_zero.mpr h]

/-- Witness for C3 at the badge "Regression Master" on the initial state. -/
theorem c3_award_badge_idempotent_witness :
    (award_badge initState "Regression Master").2 = true ∧
    (award_badge initState "Regression Master").1.badges =
      initState.badges ++ ["Regression Master"] ∧
    award_badge (award_badge initState "Regression Master").1
        "Regression Master" =
      ((award_badge initState "Regression Master").1, false) ∧
    (award_badge initState "Regression Master").1.badges.count
      "Regression Master" = 1 :=
  (c3_award_badge_idempotent initState "Regression Master").2
    (List.not_mem_nil _)

/-- Counterexample for C4: `award_xp` with the non-positive amount `-5` does
not fail — it changes `xp` from `0` to `-5` and emits the ordinary XP-gained
notification, contradicting "fails with InvalidArgument and leaves xp and
level unchanged". -/
theorem c4_counterexample :
    (award_xp initState (-5) "Task Complete").1.xp = -5 ∧
    ¬ (award_xp initState (-5) "Task Complete").1.xp = initState.xp ∧
    (award_xp initState (-5) "Task Complete").2 =
      Event.xpGained (-5) "Task Complete" := by
  refine ⟨rfl, by decide, rfl⟩

/-- C4 amended: `award_xp` performs no validation of `amount` — any amount,
non-positive ones included, is added to `xp` unconditionally and no error is
reported; in particular `award_xp 0` leaves the initial state unchanged while
`award_xp (-5)` drives `xp` from `0` down to `-5` with `level` still `1`. -/
theorem c4_award_xp_no_validation (s : SessionState) (a : Int) (r : String) :
    (award_xp s a r).1.xp = s.xp + a ∧
    (award_xp initState 0 r).1 = initState ∧
    (award_xp initState (-5) r).1.xp = -5 ∧
    (award_xp initState (-5) r).1.level = 1 :=
  ⟨award_xp_xp s a r, rfl, rfl, rfl⟩

/-- Counterexample for C5: `award_badge` with the empty string does not fail —
it appends `""` to `badges` and reports it as newly awarded, contradicting
"fails with InvalidArgument and leaves badges unchanged". -/
theorem c5_counterexample :
    (award_badge initState "").1.badges = [""] ∧
    ¬ (award_badge initState "").1.badges = initState.badges ∧
    (award_badge initState "").2 = true := by
  refine ⟨rfl, by decide, rfl⟩

/-- C5 amended: `award_badge` applies no emptiness check to `name`; the empty
string is treated like any other badge name — inserted (with
`newly_awarded = true` and a notification) when absent, a no-op when
present. -/
theorem c5_award_badge_empty_accepted (s : SessionState) :
    ("" ∉ s.badges →
      award_badge s "" = ({ s with badges := s.badges ++ [""] }, true)) ∧
    ("" ∈ s.badges → award_badge s "" = (s, false)) := by
  constructor <;> intro h <;> unfold award_badge <;> simp [h]

/-- Witness for C5's amended claim on the initial state. -/
theorem c5_award_badge_empty_accepted_witness :
    award_badge initState "" = ({ initState with badges := [""] }, true) :=
  (c5_award_badge_empty_accepted initState).1 (List.not_mem_nil _)

/-- C6: from `xp = 90, level = 1`, awarding 15 XP gives `xp = 105, level = 2`
with the level-up notification (leveled_up), and a further 5 XP gives
`xp = 110, level = 2` with only the plain XP-gained notification. -/
theorem c6_level_up_boundary (r₁ r₂ : String) :
    (award_xp stateAt90 15 r₁).1.xp = 105 ∧
    (award_xp stateAt90 15 r₁).1.level = 2 ∧
    (award_xp stateAt90 15 r₁).2 = Event.levelUp 2 ∧
    (award_xp (award_xp stateAt90 15 r₁).1 5 r₂).1.xp = 110 ∧
    (award_xp (award_xp stateAt90 15 r₁).1 5 r₂).1.level = 2 ∧
    (award_xp (award_xp stateAt90 15 r₁).1 5 r₂).2 =
      Event.xpGained 5 r₂ :=
  ⟨rfl, rfl, rfl, rfl, rfl, rfl⟩

/-- C7: an Unanswered quiz submitted with a wrong index returns `incorrect`,
stays Unanswered with the whole state (xp included) untouched; a subsequent
submission with the correct index moves it to Answered and awards the XP
reward exactly once. -/
theorem c7_retry_then_correct (rwd : Int) (s : SessionState) (key : String)
    (w c : Int) (h : s.quizAnswered key = false) (hw : w ≠ c) :
    quizSubmit rwd s key w c = (s, QuizResult.incorrect) ∧
    (quizSubmit rwd s key c c).2 = QuizResult.correctAnswer ∧
    (quizSubmit rwd s key c c).1.quizAnswered key = true ∧
    (quizSubmit rwd s key c c).1.xp = s.xp + rwd := by
  have hc := quizSubmit_correct rwd s key c h
  refine ⟨quizSubmit_wrong rwd s key w c h hw, ?_, ?_, ?_⟩ <;>
    simp [hc, award_xp_quizAnswered, award_xp_xp]

/-- Witness for C7: wrong index 0 then correct index 1 on quiz "q2". -/
theorem c7_retry_then_correct_witness :
    quizSubmit 25 initState "q2" 0 1 = (initState, QuizResult.incorrect) ∧
    (quizSubmit 25 initState "q2" 1 1).2 = QuizResult.correctAnswer ∧
    (quizSubmit 25 initState "q2" 1 1).1.quizAnswered "q2" = true ∧
    (quizSubmit 25 initState "q2" 1 1).1.xp = initState.xp + 25 :=
  c7_retry_then_correct 25 initState "q2" 0 1 rfl (by decide)

/-- C8: the progress fraction is a pure read returning `(xp mod 100) / 100`,
a rational in `[0, 1)`: it leaves the session state unchanged and a repeated
call returns the same value. -/
theorem c8_progress_fraction_pure (s : SessionState) :
    (progress_fraction s).2 = s ∧
    (progress_fraction ((progress_fraction s).2)).1 =
      (progress_fraction s).1 ∧
    0 ≤ (progress_fraction s).1 ∧ (progress_fraction s).1 < 1 := by
  have h0 : (0 : Int) ≤ s.xp.fmod 100 := by
    rw [Int.fmod_eq_emod _ (by norm_num)]
    exact Int.emod_nonneg _ (by norm_num)
  have h1 : s.xp.fmod 100 < 100 := by
    rw [Int.fmod_eq_emod _ (by norm_num)]
    exact Int.emod_lt_of_pos _ (by norm_num)
  refine ⟨rfl, rfl, ?_, ?_⟩
  · exact div_nonneg (by exact_mod_cast h0) (by norm_num)
  · show ((s.xp.fmod 100 : Int) : ℚ) / 100 < 1
    rw [div_lt_one (by norm_num)]
    exact_mod_cast h1

/-- C9: quiz submission accepts any pair of indices, out-of-range values
included: whenever the selected and correct indices differ, the submission
is simply treated as incorrect, with the state (and hence xp) untouched. -/
theorem c9_any_index_pair (rwd : Int) (s : SessionState) (key : String)
    (i c : Int) (h : s.quizAnswered key = false) (hne : i ≠ c) :
    quizSubmit rwd s key i c = (s, QuizResult.incorrect) ∧
    (quizSubmit rwd s key i c).1.xp = s.xp := by
  have hw := quizSubmit_wrong rwd s key i c h hne
  exact ⟨hw, by rw [hw]⟩

/-- Witness for C9 with the out-of-range correct index 999. -/
theorem c9_any_index_pair_witness :
    quizSubmit 25 initState "q3" 2 999 = (initState, QuizResult.incorrect) ∧
    (quizSubmit 25 initState "q3" 2 999).1.xp = initState.xp :=
  c9_any_index_pair 25 initState "q3" 2 999 rfl (by decide)

/-- C10: frame properties — `award_xp` never touches `badges` or any quiz
flag, `award_badge` never touches `xp`, `level` or any quiz flag, and a quiz
submission never touches another quiz instance's answered flag. -/
theorem c10_frame (s : SessionState) (a rwd i c : Int)
    (r n key k' : String) (hk : k' ≠ key) :
    (award_xp s a r).1.badges = s.badges ∧
    (award_xp s a r).1.quizAnswered = s.quizAnswered ∧
    (award_badge s n).1.xp = s.xp ∧
    (award_badge s n).1.level = s.level ∧
    (award_badge s n).1.quizAnswered = s.quizAnswered ∧
    (quizSubmit rwd s key i c).1.quizAnswered k' = s.quizAnswered k' := by
  have hb := award_badge_frame s n
  exact ⟨award_xp_badges s a r, award_xp_quizAnswered s a r, hb.1, hb.2.1,
    hb.2.2, quizSubmit_other_key rwd s key i c k' hk⟩

/-- Witness for C10 at concrete arguments with distinct quiz keys. -/
theorem c10_frame_witness :
    (award_xp initState 7 "r").1.badges = initState.badges ∧
    (award_xp initState 7 "r").1.quizAnswered = initState.quizAnswered ∧
    (award_badge initState "Novice").1.xp = initState.xp ∧
    (award_badge initState "Novice").1.level = initState.level ∧
    (award_badge initState "Novice").1.quizAnswered =
      initState.quizAnswered ∧
    (quizSubmit 25 initState "qA" 0 0).1.quizAnswered "qB" =
      initState.quizAnswered "qB" :=
  c10_frame initState 7 25 0 0 "r" "Novice" "qA" "qB" (by decide)
